import Mathlib

/-!
Verification of the gomailer library (github.com/NawafSwe/gomailer).

The Go sources are shallowly embedded: Go strings are modelled as Lean
`String`s (their byte content as lists of characters / numbers, which is
exact for the ASCII data handled here), fallible operations return
`Option`/`Except`, and the network collaborators (the SMTP client, the
data writer) are modelled as behaviour oracles; each embedded operation
additionally returns the list of protocol events it performed, in order.

One genuine source of nondeterminism is embedded explicitly: the encoder
iterates a Go map (`for k, v := range m.Headers`) whose iteration order
the Go language leaves unspecified.  `encode` therefore takes the
iteration order as an explicit argument; a real run of the program
corresponds to some permutation of the map entries.
-/

namespace Gomailer

/-! ## Generic list/string infrastructure -/

/-- `OccursIn p s` states that `p` occurs as a contiguous sublist of `s`
(the usual substring relation, used to model Go `strings.Contains` and
the "boundary marker occurs in the output" property). -/
def OccursIn (p s : List Char) : Prop := ∃ l r, s = l ++ p ++ r

/-- Boolean substring check: does `p` occur contiguously in `s`? -/
def occursB (p : List Char) : List Char → Bool
  | [] => p.isEmpty
  | c :: s => p.isPrefixOf (c :: s) || occursB p s

/-- Model of Go `strings.Contains(s, sub)`. -/
def strContains (s sub : String) : Bool := occursB sub.data s.data

/-! ## Package `message`: constants (message.go) -/

/-- RFC 2045 maximum line length used by the encoder. -/
def maxLineLength : Nat := 76

/-- Default Content-Type (RFC 2045 §5.2). -/
def plainContentType : String := "text/plain; charset=us-ascii"

/-- Content-Type used for HTML bodies. -/
def htmlTypeContentType : String := "text/html; charset=UTF-8"

/-- Boundary separating the parts of a multipart/mixed message. -/
def boundary : String := "BOUNDARY"

/-- Boundary separating the parts of a multipart/alternative section. -/
def altBoundary : String := "ALT-BOUNDARY"

/-- CRLF line terminator (RFC 5322). -/
def crlf : String := "\r\n"

/-- Separator used when joining address lists. -/
def separator : String := ", "

/-- `multipart/mixed; boundary=BOUNDARY` (a `fmt.Sprintf` in the source). -/
def multiPartMixedContentType : String := "multipart/mixed; boundary=" ++ boundary

/-- `multipart/alternative; boundary=ALT-BOUNDARY`. -/
def multiPartAlternativeContentType : String := "multipart/alternative; boundary=" ++ altBoundary

/-- Model of Go `strings.Join(l, ", ")`. -/
def joinSep (l : List String) : String := String.intercalate separator l

/-! ## Package `message`: base64 helper (encoder.go / message.go)

`encodeBase64` is `strings.TrimRight(base64.StdEncoding.EncodeToString([]byte(input)), "=")`:
standard-alphabet base64 with the trailing `=` padding stripped. -/

/-- The standard base64 alphabet. -/
def base64Alphabet : List Char :=
  "ABCDEFGHIJKLMNOPQRSTUVWXYZabcdefghijklmnopqrstuvwxyz0123456789+/".data

/-- The base64 digit for a 6-bit value. -/
def b64Char (n : Nat) : Char := base64Alphabet.getD n 'A'

/-- Standard base64 encoding of a byte sequence, processed in groups of
three bytes, with `=` padding on a final short group. -/
def base64Groups : List Nat → List Char
  | [] => []
  | [b1] => [b64Char (b1 / 4), b64Char (b1 % 4 * 16), '=', '=']
  | [b1, b2] => [b64Char (b1 / 4), b64Char (b1 % 4 * 16 + b2 / 16), b64Char (b2 % 16 * 4), '=']
  | b1 :: b2 :: b3 :: rest =>
      b64Char (b1 / 4) :: b64Char (b1 % 4 * 16 + b2 / 16) ::
      b64Char (b2 % 16 * 4 + b3 / 64) :: b64Char (b3 % 64) :: base64Groups rest

/-- Model of Go `strings.TrimRight(s, "=")`: drop all trailing `=`. -/
def trimRightEq (l : List Char) : List Char := (l.reverse.dropWhile (fun c => c = '=')).reverse

/-- `encodeBase64` on a raw byte sequence (used for attachment payloads). -/
def encodeBase64Bytes (bs : List Nat) : String := List.asString (trimRightEq (base64Groups bs))

/-- `encodeBase64(input)`: base64 of the bytes of `input`, padding stripped. -/
def encodeBase64 (input : String) : String := encodeBase64Bytes (input.data.map Char.toNat)

/-! ## Package `message`: splitLines (encoder.go / message.go)

    func splitLines(input string, maxLength int) []string {
        var lines []string
        for len(input) > maxLength {
            lines = append(lines, input[:maxLength])
            input = input[maxLength:]
        }
        lines = append(lines, input)
        return lines
    }

The loop is translated by recursion on an explicit fuel argument; every
iteration of the Go loop removes `maxLength ≥ 1` characters, so fuel
`input.length` is always sufficient for a positive `maxLength` (for
`maxLength = 0` the Go loop does not terminate on nonempty input). -/

/-- The `splitLines` loop on lists of characters, with explicit fuel. -/
def splitLinesL (maxLength : Nat) : Nat → List Char → List (List Char)
  | 0, input => [input]
  | Nat.succ fuel, input =>
    if maxLength < input.length then
      input.take maxLength :: splitLinesL maxLength fuel (input.drop maxLength)
    else [input]

/-- `splitLines(input, maxLength)` from the source. -/
def splitLines (input : String) (maxLength : Nat) : List String :=
  (splitLinesL maxLength input.length input.data).map List.asString

/-- The `for _, line := range splitLines(s, maxLineLength) { b.WriteString(line + crlf) }`
pattern used for plain-text bodies and base64 payloads. -/
def foldLines (s : String) : String :=
  String.join ((splitLines s maxLineLength).map (fun l => l ++ crlf))

/-! ## Package `message`: data model (message.go) -/

/-- `Attachment` attached files to `Message` (`Data` is a Go byte slice). -/
structure Attachment where
  Filename : String
  Data : List Nat
  MIMEType : String
deriving DecidableEq, Repr

/-- `Message` will be sent in email.  `Headers` holds the entries of the
Go map `mail.Header` (`map[string][]string`) as a list of key/values
pairs; the *iteration order* used by a run of `encode` is passed to
`encode` separately, since Go leaves map iteration order unspecified. -/
structure Message where
  From : String := ""
  Recipients : List String := []
  Cc : List String := []
  Bcc : List String := []
  Body : String := ""
  HTMLBody : String := ""
  Subject : String := ""
  Headers : List (String × List String) := []
  Attachments : List Attachment := []
deriving DecidableEq, Repr

/-- `NewMessage()`. -/
def NewMessage : Message := {}

/-! ## Package `message`: attachment encoding (message.go) -/

/-- The part headers and payload of an encoded attachment (everything
`Attachment.encode` writes after its opening boundary line). -/
def attachmentPartBody (a : Attachment) : String :=
  "Content-Type: " ++ a.MIMEType ++ "; name=\"" ++ a.Filename ++ "\"" ++ crlf ++
  "Content-Transfer-Encoding: base64" ++ crlf ++
  "Content-Disposition: attachment; filename=\"" ++ a.Filename ++ "\"" ++ crlf ++
  crlf ++
  foldLines (encodeBase64Bytes a.Data) ++
  crlf

/-- `func (a Attachment) encode() string`: boundary line, part headers,
blank line, base64 payload folded into 76-character lines, blank line. -/
def Attachment.encode (a : Attachment) : String :=
  "--" ++ boundary ++ crlf ++ attachmentPartBody a

/-! ## Package `message`: message encoding (message.go, `encode` at its
final revision: fixed header order for the built-in headers, then the
extra-header map, then the content selected by attachment/body shape) -/

/-- The top-level Content-Type selection chain from `encode`:

    if hasAttachement { multiPartMixedContentType }
    else if hasBothPlainAndHTML { multiPartAlternativeContentType }
    else if m.HTMLBody != "" { htmlTypeContentType }
    else { plainContentType } -/
def contentTypeOf (m : Message) : String :=
  if m.Attachments ≠ [] then multiPartMixedContentType
  else if m.Body ≠ "" ∧ m.HTMLBody ≠ "" then multiPartAlternativeContentType
  else if m.HTMLBody ≠ "" then htmlTypeContentType
  else plainContentType

/-- The encoded Subject header value `"=?UTF-8?B?" + encodeBase64(m.Subject) + "?="`. -/
def subjectHeaderValue (m : Message) : String := "=?UTF-8?B?" ++ encodeBase64 m.Subject ++ "?="

/-- One extra header line `fmt.Sprintf("%s: %s%s", k, strings.Join(v, ", "), crlf)`. -/
def extraHeaderLine (kv : String × List String) : String :=
  kv.1 ++ ": " ++ joinSep kv.2 ++ crlf

/-- The `for k, v := range m.Headers` loop: one header line per entry,
in iteration order. -/
def extraHeadersStr : List (String × List String) → String
  | [] => ""
  | kv :: rest => extraHeaderLine kv ++ extraHeadersStr rest

/-- The `for _, attachment := range m.Attachments` loop: the encoded
attachments, concatenated in order. -/
def attachmentsStr : List Attachment → String
  | [] => ""
  | a :: rest => Attachment.encode a ++ attachmentsStr rest

/-- The header section written by `encode` before the body: MIME-Version,
Subject, From, the selected Content-Type, then To/Cc/Bcc when nonempty,
the extra headers in map-iteration order `order`, and the blank line. -/
def headerBlock (m : Message) (order : List (String × List String)) : String :=
  "MIME-Version: 1.0" ++ crlf ++
  "Subject: " ++ subjectHeaderValue m ++ crlf ++
  "From: " ++ m.From ++ crlf ++
  "Content-Type: " ++ contentTypeOf m ++ crlf ++
  (if m.Recipients ≠ [] then "To: " ++ joinSep m.Recipients ++ crlf else "") ++
  (if m.Cc ≠ [] then "Cc: " ++ joinSep m.Cc ++ crlf else "") ++
  (if m.Bcc ≠ [] then "Bcc: " ++ joinSep m.Bcc ++ crlf else "") ++
  extraHeadersStr order ++
  crlf

/-- `func encodeMessageContent(m Message) string`: the body section for a
message without attachments (nested alternative envelope when both
bodies are present, raw HTML + CRLF for HTML only, folded plain text
otherwise). -/
def encodeMessageContent (m : Message) : String :=
  if m.Body ≠ "" ∧ m.HTMLBody ≠ "" then
    "Content-Type: " ++ multiPartAlternativeContentType ++ crlf ++
    "--" ++ altBoundary ++ crlf ++
    "Content-Type: " ++ plainContentType ++ crlf ++
    "Content-Transfer-Encoding: 8bit" ++ crlf ++
    crlf ++
    foldLines m.Body ++
    crlf ++
    "--" ++ altBoundary ++ crlf ++
    "Content-Type: " ++ htmlTypeContentType ++ crlf ++
    "Content-Transfer-Encoding: 8bit" ++ crlf ++
    crlf ++
    m.HTMLBody ++ crlf ++
    "--" ++ altBoundary ++ "--" ++ crlf
  else if m.HTMLBody ≠ "" then m.HTMLBody ++ crlf
  else foldLines m.Body

/-- `func encodeMultiPartMixed(m Message) string`: the first body part of
the mixed envelope (the alternative envelope when both bodies are
present, otherwise a single HTML or plain part), followed by a CRLF. -/
def encodeMultiPartMixed (m : Message) : String :=
  (if m.HTMLBody ≠ "" ∧ m.Body ≠ "" then encodeMessageContent m
   else if m.HTMLBody ≠ "" then
     "Content-Type: " ++ htmlTypeContentType ++ crlf ++
     "Content-Transfer-Encoding: 8bit" ++ crlf ++
     crlf ++
     m.HTMLBody
   else
     "Content-Type: " ++ plainContentType ++ crlf ++
     "Content-Transfer-Encoding: 8bit" ++ crlf ++
     crlf ++
     foldLines m.Body) ++
  crlf

/-- The body section of `encode`: for attachments, the opening boundary
line, the body content part, one encoded part per attachment and the
final terminator `--BOUNDARY--CRLF`; otherwise `encodeMessageContent`. -/
def bodySection (m : Message) : String :=
  if m.Attachments ≠ [] then
    "--" ++ boundary ++ crlf ++
    encodeMultiPartMixed m ++
    attachmentsStr m.Attachments ++
    "--" ++ boundary ++ "--" ++ crlf
  else encodeMessageContent m

/-- `func encode(m Message) []byte` (final revision), with the iteration
order of the extra-header map passed explicitly. -/
def encode (m : Message) (order : List (String × List String)) : String :=
  headerBlock m order ++ bodySection m

/-! ## Package `message`: validation (message.go, final revision)

`validate` calls `net/mail.ParseAddress`, an external collaborator from
the Go standard library; it is abstracted as a parameter
`parseErr : String → Option String` returning `some e` exactly when
`mail.ParseAddress` fails with message `e`. -/

/-- The recipient loop of `validate`: the first recipient failing
`mail.ParseAddress` produces the error naming that recipient. -/
def firstRecipientError (parseErr : String → Option String) : List String → Option String
  | [] => none
  | r :: rs =>
    match parseErr r with
    | some e => some ("given " ++ r ++ " is invalid recipient email: " ++ e)
    | none => firstRecipientError parseErr rs

/-- `func (m Message) validate() error` (final revision):

    if m.From == "" { "from address cannot be empty" }
    if ParseAddress(m.From) fails { "invalid from address: " + err }
    if len(m.Recipients) == 0 { "recipients cannot be empty slice" }
    first failing recipient { "given <r> is invalid recipient email: " + err } -/
def validate (parseErr : String → Option String) (m : Message) : Option String :=
  if m.From = "" then some "from address cannot be empty"
  else
    match parseErr m.From with
    | some e => some ("invalid from address: " ++ e)
    | none =>
      if m.Recipients = [] then some "recipients cannot be empty slice"
      else firstRecipientError parseErr m.Recipients

/-- `func (m Message) Encode() ([]byte, error)`: validate, then encode;
a validation failure is wrapped as `failed to encode message: <err>` and
no bytes are produced. -/
def MessageEncode (parseErr : String → Option String) (m : Message)
    (order : List (String × List String)) : Except String String :=
  match validate parseErr m with
  | some e => Except.error ("failed to encode message: " ++ e)
  | none => Except.ok (encode m order)

/-- A stand-in instance for `mail.ParseAddress` used only to instantiate
witnesses: accepts exactly the strings containing an `@`, failing with
the error text `mail.ParseAddress` produces on such inputs.  The
theorems about `validate`/`MessageEncode` are quantified over every
parser. -/
def sampleParseErr (s : String) : Option String :=
  if strContains s "@" then none else some "mail: missing '@' or angle-addr"

/-! ## Package `gomailer`: mailer.go constants and data model -/

/-- The well-known implicit-TLS port. -/
def sslPort : Nat := 465

/-- `crmAuthMechanism`. -/
def crmAuthMechanism : String := "CRAM-MD5"

/-- `plainAuthMechanism`. -/
def plainAuthMechanism : String := "PLAIN"

/-- The three authenticator shapes (`smtp.CRAMMD5Auth`,
`smtp.PlainAuth`, and the package's own LOGIN authenticator), carrying
the credentials they are built from. -/
inductive AuthMech where
  | cramMD5 (username secret : String)
  | plain (identity username password host : String)
  | login (username password : String)
deriving DecidableEq, Repr

/-- The `Mailer` configuration (fields used by
`ConnectAndAuthenticate`); `auth = none` models the nil `smtp.Auth`. -/
structure Mailer where
  Port : Nat
  Host : String
  Username : String
  Password : String
  localName : String := ""
  secrets : String := ""
  sslEnabled : Bool := false
  auth : Option AuthMech := none
deriving DecidableEq, Repr

/-- `NewMailer(host, port, username, password)` before options are
applied (the TLS config and dial timeout carry no information relevant
to the embedded behaviour). -/
def NewMailer (host : String) (port : Nat) (username password : String) : Mailer :=
  { Port := port, Host := host, Username := username, Password := password }

/-- `WithSSLEnabled(s)`: sets `sslEnabled` only when `s` is true. -/
def WithSSLEnabled (s : Bool) (m : Mailer) : Mailer :=
  if s then { m with sslEnabled := s } else m

/-- `WithLocalName(l)`: sets `localName` only when nonempty. -/
def WithLocalName (l : String) (m : Mailer) : Mailer :=
  if l ≠ "" then { m with localName := l } else m

/-! ## Package `gomailer`: the protocol collaborator as a behaviour oracle

`ConnectAndAuthenticate` drives `net.DialTimeout`, `tls.Client`,
`smtp.NewClient` and the `smtpClient` interface (Hello / Extension /
StartTLS / Auth / Close).  Their responses are collected in
`ServerBehavior`; the embedded function returns the ordered list of
`Event`s it performed together with its result. -/

/-- Scripted responses of the dialled server and transport. -/
structure ServerBehavior where
  dialErr : Option String := none
  clientErr : Option String := none
  helloErr : Option String := none
  startTLSSupported : Bool := false
  startTLSErr : Option String := none
  authSupported : Bool := false
  authParams : String := ""
  authErr : Option String := none
deriving DecidableEq, Repr

/-- Protocol-relevant events of one `ConnectAndAuthenticate` run. -/
inductive Event where
  | dial
  | tlsWrap
  | newClient
  | hello (localName : String)
  | extensionQuery (ext : String)
  | startTLSCmd
  | authCmd (mech : AuthMech)
  | close
deriving DecidableEq, Repr

/-- `func (m *Mailer) authenticationMechanism(smtpClient)`: queries the
AUTH extension and, when advertised, selects CRAM-MD5 over PLAIN over
LOGIN by `strings.Contains` on the advertised parameter string. -/
def authenticationMechanism (m : Mailer) (srv : ServerBehavior) : List Event × Mailer :=
  ([Event.extensionQuery "AUTH"],
   if srv.authSupported then
     if strContains srv.authParams crmAuthMechanism then
       { m with auth := some (AuthMech.cramMD5 m.Username m.secrets) }
     else if strContains srv.authParams plainAuthMechanism then
       { m with auth := some (AuthMech.plain "" m.Username m.Password m.Host) }
     else
       { m with auth := some (AuthMech.login m.Username m.Password) }
   else m)

/-- The tail of `ConnectAndAuthenticate` after the STARTTLS section:
mechanism selection (only when no authenticator was supplied and a
username is configured), then the authentication exchange when an
authenticator is present; an authentication failure closes the
transport and returns the wrapped error.  On success the selected
authenticator (if any) is returned. -/
def negotiateAuth (m : Mailer) (srv : ServerBehavior) : List Event × Except String (Option AuthMech) :=
  let sel :=
    if m.auth = none ∧ m.Username ≠ "" then authenticationMechanism m srv
    else ([], m)
  match sel.2.auth with
  | some a =>
    match srv.authErr with
    | some e =>
      (sel.1 ++ [Event.authCmd a, Event.close],
       Except.error ("failed to authenticate with smtp server: " ++ e))
    | none => (sel.1 ++ [Event.authCmd a], Except.ok (some a))
  | none => (sel.1, Except.ok none)

/-- The STARTTLS section of `ConnectAndAuthenticate`: skipped entirely
when `sslEnabled` is set; otherwise the STARTTLS extension is queried
and, when advertised, STARTTLS is issued — a failure closes the
transport and returns the wrapped error. -/
def negotiateStartTLS (m : Mailer) (srv : ServerBehavior) : List Event × Except String (Option AuthMech) :=
  if m.sslEnabled then negotiateAuth m srv
  else
    if srv.startTLSSupported then
      match srv.startTLSErr with
      | some e =>
        ([Event.extensionQuery "STARTTLS", Event.startTLSCmd, Event.close],
         Except.error ("failed to StartTLS: " ++ e))
      | none =>
        let t := negotiateAuth m srv
        ([Event.extensionQuery "STARTTLS", Event.startTLSCmd] ++ t.1, t.2)
    else
      let t := negotiateAuth m srv
      ([Event.extensionQuery "STARTTLS"] ++ t.1, t.2)

/-- `func (m *Mailer) ConnectAndAuthenticate() (SendCloser, error)`:
dial, TLS-wrap when the port is 465, client construction, optional
HELLO, the STARTTLS section, mechanism selection and authentication.
The result carries the authenticator the session ended up with
(`Except.ok` plays the role of the returned `SendCloser`). -/
def ConnectAndAuthenticate (m : Mailer) (srv : ServerBehavior) :
    List Event × Except String (Option AuthMech) :=
  match srv.dialErr with
  | some e => ([Event.dial], Except.error ("failed to dial to smtp server: " ++ e))
  | none =>
    let evTLS := if m.Port = sslPort then [Event.tlsWrap] else []
    match srv.clientErr with
    | some e =>
      ([Event.dial] ++ evTLS ++ [Event.newClient],
       Except.error ("failed to dial smtp server: " ++ e))
    | none =>
      if m.localName ≠ "" then
        match srv.helloErr with
        | some e =>
          ([Event.dial] ++ evTLS ++ [Event.newClient, Event.hello m.localName],
           Except.error ("failed to dial smtp server: " ++ e))
        | none =>
          let t := negotiateStartTLS m srv
          ([Event.dial] ++ evTLS ++ [Event.newClient, Event.hello m.localName] ++ t.1, t.2)
      else
        let t := negotiateStartTLS m srv
        ([Event.dial] ++ evTLS ++ [Event.newClient] ++ t.1, t.2)

/-! ## Package `gomailer`: mailSender.Send (mailer.go) -/

/-- Scripted responses of the SMTP command layer during `Send`. -/
structure SendServer where
  mailErr : Option String := none
  rcptErr : String → Option String := fun _ => none
  dataErr : Option String := none
  writeErr : Option String := none

/-- Events of one `mailSender.Send` run. -/
inductive SendEvent where
  | mailCmd (addr : String)
  | rcptCmd (addr : String)
  | dataCmd
  | writeData (bytes : String)
  | closeWriter
deriving DecidableEq, Repr

/-- The RCPT loop of `Send`: issue RCPT for each primary recipient in
order, stopping at the first failure with the error naming that
address. -/
def rcptLoop (srv : SendServer) : List String → List SendEvent × Option String
  | [] => ([], none)
  | r :: rs =>
    match srv.rcptErr r with
    | some e =>
      ([SendEvent.rcptCmd r],
       some ("mailer failed to send rcpt command for address " ++ r ++ ": " ++ e))
    | none =>
      let t := rcptLoop srv rs
      (SendEvent.rcptCmd r :: t.1, t.2)

/-- `func (m *mailSender) Send(message message.Message) error`: MAIL,
the RCPT loop, DATA, `message.Encode()`, then the write with the
deferred close of the data writer.  The deferred `w.Close()` is
registered only *after* the `w.Write` call, so an encoding failure
returns before any close of the opened data stream, while a write
failure (or success) is followed by the close. -/
def mailSenderSend (parseErr : String → Option String) (srv : SendServer)
    (m : Message) (order : List (String × List String)) : List SendEvent × Option String :=
  match srv.mailErr with
  | some e =>
    ([SendEvent.mailCmd m.From],
     some ("mailer failed to send MAIL command for address " ++ m.From ++ ": " ++ e))
  | none =>
    let rl := rcptLoop srv m.Recipients
    match rl.2 with
    | some e => (SendEvent.mailCmd m.From :: rl.1, some e)
    | none =>
      match srv.dataErr with
      | some e =>
        (SendEvent.mailCmd m.From :: rl.1 ++ [SendEvent.dataCmd],
         some ("mailer failed to get data writer: " ++ e))
      | none =>
        match MessageEncode parseErr m order with
        | Except.error e =>
          (SendEvent.mailCmd m.From :: rl.1 ++ [SendEvent.dataCmd],
           some ("failed to send message: " ++ e))
        | Except.ok bytes =>
          match srv.writeErr with
          | some e =>
            (SendEvent.mailCmd m.From :: rl.1 ++
               [SendEvent.dataCmd, SendEvent.writeData bytes, SendEvent.closeWriter],
             some ("failed writing data: " ++ e))
          | none =>
            (SendEvent.mailCmd m.From :: rl.1 ++
               [SendEvent.dataCmd, SendEvent.writeData bytes, SendEvent.closeWriter],
             none)

/-! ## Package `gomailer`: the LOGIN authenticator (login auth source file) -/

/-- The username prompt `loginAuthUsername`. -/
def loginAuthUsername : String := "Username:"

/-- The password prompt `loginAuthPassword`. -/
def loginAuthPassword : String := "Password:"

/-- `loginAuth` carries the credentials of the LOGIN mechanism. -/
structure LoginAuth where
  username : String
  password : String
deriving DecidableEq, Repr

/-- `func (a *loginAuth) Next(fromServer []byte, more bool) ([]byte, error)`:
with `more`, answer the username prompt with the username, the password
prompt with the password, and fail on any other challenge; without
`more`, return no data and no error (`some`/`none` model the non-nil /
nil byte slice). -/
def LoginAuth.next (a : LoginAuth) (fromServer : String) (more : Bool) :
    Except String (Option String) :=
  if more then
    if fromServer = loginAuthUsername then Except.ok (some a.username)
    else if fromServer = loginAuthPassword then Except.ok (some a.password)
    else Except.error ("unexpected server challange: " ++ fromServer)
  else Except.ok none

/-! ## Derived notions used by the theorem statements -/

/-- `s` ends with `t` (as byte strings). -/
def StrEndsWith (s t : String) : Prop := ∃ u, s = u ++ t

/-- `s` contains neither the mixed boundary marker `--BOUNDARY` nor the
alternative boundary marker `--ALT-BOUNDARY` as a substring. -/
def MarkerFree (s : String) : Prop :=
  occursB ("--" ++ boundary).data s.data = false ∧
  occursB ("--" ++ altBoundary).data s.data = false

/-- `l` avoids `p` and is either empty or terminated by a newline; the
invariant maintained while assembling the encoder's output line by
line. -/
def TailSafe (p l : List Char) : Prop :=
  ¬ OccursIn p l ∧ (l = [] ∨ ∃ l0, l = l0 ++ ['\n'])

/-- The plain-text part of the multipart/alternative envelope, as
written by `encodeMessageContent` (part headers, blank line, folded
body, blank line). -/
def plainAltPart (m : Message) : String :=
  "Content-Type: " ++ plainContentType ++ crlf ++
  "Content-Transfer-Encoding: 8bit" ++ crlf ++
  crlf ++
  foldLines m.Body ++
  crlf

/-- The HTML part of the multipart/alternative envelope, as written by
`encodeMessageContent` (part headers, blank line, raw HTML, CRLF). -/
def htmlAltPart (m : Message) : String :=
  "Content-Type: " ++ htmlTypeContentType ++ crlf ++
  "Content-Transfer-Encoding: 8bit" ++ crlf ++
  crlf ++
  m.HTMLBody ++ crlf

/-- The multipart/alternative envelope: its Content-Type line, then
exactly two parts — the plain part first, the HTML part second — each
opened by an `--ALT-BOUNDARY` line, closed by the `--ALT-BOUNDARY--`
terminator. -/
def altEnvelope (m : Message) : String :=
  "Content-Type: " ++ multiPartAlternativeContentType ++ crlf ++
  "--" ++ altBoundary ++ crlf ++
  plainAltPart m ++
  "--" ++ altBoundary ++ crlf ++
  htmlAltPart m ++
  "--" ++ altBoundary ++ "--" ++ crlf

/-- The single body part `encodeMultiPartMixed` emits inside the mixed
envelope when no HTML body is present (also used when both bodies are
empty). -/
def plainMixedPart (m : Message) : String :=
  "Content-Type: " ++ plainContentType ++ crlf ++
  "Content-Transfer-Encoding: 8bit" ++ crlf ++
  crlf ++
  foldLines m.Body ++
  crlf

/-! ## Concrete inputs used by counterexamples and failing-input theorems -/

/-- A mailer built by `NewMailer` on the implicit-TLS port 465 with no
options applied — in particular `WithSSLEnabled` was not used, so
`sslEnabled` keeps its zero value `false`. -/
def c6Mailer : Mailer := NewMailer "smtp.example.com" 465 "user" "secret"

/-- A healthy server that advertises STARTTLS and PLAIN authentication. -/
def c6Server : ServerBehavior :=
  { startTLSSupported := true, authSupported := true, authParams := "PLAIN" }

/-- A message whose extra-header map has two entries. -/
def c2Message : Message :=
  { From := "a@b.c", Recipients := ["d@e.f"], Body := "hello", Subject := "s",
    Headers := [("A", ["1"]), ("B", ["2"])] }

/-- One iteration order of `c2Message`'s header map. -/
def c2Order1 : List (String × List String) := [("A", ["1"]), ("B", ["2"])]

/-- The other iteration order of `c2Message`'s header map. -/
def c2Order2 : List (String × List String) := [("B", ["2"]), ("A", ["1"])]

/-- A message that fails validation (empty From), used against an
otherwise healthy SMTP command layer. -/
def c7Message : Message := { From := "", Recipients := ["test@gomailer.com"], Body := "dummy body" }

/-- A SMTP command layer that accepts every command. -/
def c7SendServer : SendServer := {}

/-- A concrete HTML-only message (no attachments, no plain body). -/
def c1HtmlMsg : Message :=
  { From := "gomailer@smtp.com", Recipients := ["test.usr@smtp.com"],
    HTMLBody := "<p>hello</p>", Subject := "s" }

/-- A concrete message with a single attachment and no bodies. -/
def c1AttMsg : Message :=
  { From := "gomailer@smtp.com", Recipients := ["test.usr@smtp.com"],
    Attachments := [{ Filename := "f1", Data := [1, 2], MIMEType := "application/pdf" }] }

/-! # Theorems -/

/-- C9: for every LOGIN authenticator built from a username and
password, `Next(challenge, more=true)` returns the username bytes on
the username prompt, the password bytes on the password prompt, and an
unexpected-challenge error (with no data) on any other challenge;
`Next(anything, more=false)` returns no data and no error. -/
theorem C9_login_next_behaviour (u p challenge : String) :
    LoginAuth.next ⟨u, p⟩ loginAuthUsername true = Except.ok (some u) ∧
    LoginAuth.next ⟨u, p⟩ loginAuthPassword true = Except.ok (some p) ∧
    (challenge ≠ loginAuthUsername → challenge ≠ loginAuthPassword →
      LoginAuth.next ⟨u, p⟩ challenge true =
        Except.error ("unexpected server challange: " ++ challenge)) ∧
    LoginAuth.next ⟨u, p⟩ challenge false = Except.ok none := by
  refine ⟨rfl, ?_, ?_, rfl⟩
  · simp [LoginAuth.next, loginAuthUsername, loginAuthPassword]
  · intro h1 h2
    simp [LoginAuth.next, h1, h2]

/-- Witness for C9 at concrete credentials and the challenge `Other:`. -/
theorem C9_login_next_behaviour_witness :
    LoginAuth.next ⟨"usr", "pw"⟩ "Other:" true =
      Except.error ("unexpected server challange: " ++ "Other:") ∧
    LoginAuth.next ⟨"usr", "pw"⟩ "Other:" false = Except.ok none :=
  ⟨(C9_login_next_behaviour "usr" "pw" "Other:").2.2.1 (by decide) (by decide),
   (C9_login_next_behaviour "usr" "pw" "Other:").2.2.2⟩

/-- C4: mechanism selection is the pure function
`authenticationMechanism` of the advertised AUTH parameter string and
the configured credentials, with priority CRAM-MD5 over PLAIN over
LOGIN: if the advertised string contains `CRAM-MD5` the CRAM-MD5
authenticator (username + shared secret) is selected even when `PLAIN`
is also advertised; else if it contains `PLAIN` the plain authenticator
(identity, username, password, host) is selected; else the LOGIN
authenticator (username + password) is the fallback. -/
theorem C4_auth_mechanism_priority (m : Mailer) (srv : ServerBehavior)
    (hok : srv.authSupported = true) :
    (strContains srv.authParams crmAuthMechanism = true →
      (authenticationMechanism m srv).2.auth =
        some (AuthMech.cramMD5 m.Username m.secrets)) ∧
    (strContains srv.authParams crmAuthMechanism = false →
     strContains srv.authParams plainAuthMechanism = true →
      (authenticationMechanism m srv).2.auth =
        some (AuthMech.plain "" m.Username m.Password m.Host)) ∧
    (strContains srv.authParams crmAuthMechanism = false →
     strContains srv.authParams plainAuthMechanism = false →
      (authenticationMechanism m srv).2.auth =
        some (AuthMech.login m.Username m.Password)) := by
  refine ⟨?_, ?_, ?_⟩
  · intro h; simp [authenticationMechanism, hok, h]
  · intro h1 h2; simp [authenticationMechanism, hok, h1, h2]
  · intro h1 h2; simp [authenticationMechanism, hok, h1, h2]

/-- Witness for C4: a server advertising both `CRAM-MD5` and `PLAIN`
selects CRAM-MD5; a server advertising only `PLAIN` selects PLAIN; a
server advertising neither falls back to LOGIN. -/
theorem C4_auth_mechanism_priority_witness :
    (authenticationMechanism (NewMailer "h" 25 "u" "pw")
      { authSupported := true, authParams := "CRAM-MD5 PLAIN" }).2.auth =
        some (AuthMech.cramMD5 "u" "") ∧
    (authenticationMechanism (NewMailer "h" 25 "u" "pw")
      { authSupported := true, authParams := "PLAIN LOGIN" }).2.auth =
        some (AuthMech.plain "" "u" "pw" "h") ∧
    (authenticationMechanism (NewMailer "h" 25 "u" "pw")
      { authSupported := true, authParams := "XOAUTH2" }).2.auth =
        some (AuthMech.login "u" "pw") :=
  ⟨(C4_auth_mechanism_priority (NewMailer "h" 25 "u" "pw")
      { authSupported := true, authParams := "CRAM-MD5 PLAIN" } rfl).1 (by decide),
   (C4_auth_mechanism_priority (NewMailer "h" 25 "u" "pw")
      { authSupported := true, authParams := "PLAIN LOGIN" } rfl).2.1 (by decide) (by decide),
   (C4_auth_mechanism_priority (NewMailer "h" 25 "u" "pw")
      { authSupported := true, authParams := "XOAUTH2" } rfl).2.2 (by decide) (by decide)⟩

/-- C10: with no explicit authenticator, a configured username, and a
server that does not advertise the AUTH extension,
`ConnectAndAuthenticate` selects no mechanism, never performs the
authentication exchange, never closes the transport, and returns a
session (success) without authenticating. -/
theorem C10_no_auth_extension_skips_authentication (m : Mailer) (srv : ServerBehavior)
    (hauth : m.auth = none) (huser : m.Username ≠ "")
    (hnoAuth : srv.authSupported = false)
    (hdial : srv.dialErr = none) (hclient : srv.clientErr = none)
    (hhello : m.localName = "" ∨ srv.helloErr = none)
    (htls : m.sslEnabled = true ∨ srv.startTLSSupported = false ∨ srv.startTLSErr = none) :
    (ConnectAndAuthenticate m srv).2 = Except.ok none ∧
    (∀ a : AuthMech, Event.authCmd a ∉ (ConnectAndAuthenticate m srv).1) ∧
    Event.close ∉ (ConnectAndAuthenticate m srv).1 := by
  have hneg : negotiateAuth m srv =
      ([Event.extensionQuery "AUTH"], Except.ok none) := by
    simp [negotiateAuth, authenticationMechanism, hauth, huser, hnoAuth]
  have htls2 : (negotiateStartTLS m srv).2 = Except.ok none ∧
      (∀ a : AuthMech, Event.authCmd a ∉ (negotiateStartTLS m srv).1) ∧
      Event.close ∉ (negotiateStartTLS m srv).1 := by
    rcases htls with h | h | h
    · simp [negotiateStartTLS, h, hneg]
    · simp only [negotiateStartTLS, h, hneg]
      cases hssl : m.sslEnabled <;> simp
    · simp only [negotiateStartTLS, h, hneg]
      cases hssl : m.sslEnabled <;> cases hst : srv.startTLSSupported <;> simp
  rcases hhello with h | h
  · simp only [ConnectAndAuthenticate, hdial, hclient, h]
    simp [htls2.1, htls2.2.1, htls2.2.2]
  · by_cases hl : m.localName = ""
    · simp only [ConnectAndAuthenticate, hdial, hclient, hl]
      simp [htls2.1, htls2.2.1, htls2.2.2]
    · simp only [ConnectAndAuthenticate, hdial, hclient, hl, h]
      simp [hl, htls2.1, htls2.2.1, htls2.2.2]

/-- Witness for C10: a username-only mailer against a server with no
AUTH extension connects without authenticating. -/
theorem C10_no_auth_extension_skips_authentication_witness :
    (ConnectAndAuthenticate (NewMailer "h" 587 "u" "pw") { startTLSSupported := false }).2 =
      Except.ok none ∧
    (∀ a : AuthMech,
      Event.authCmd a ∉
        (ConnectAndAuthenticate (NewMailer "h" 587 "u" "pw") { startTLSSupported := false }).1) ∧
    Event.close ∉
      (ConnectAndAuthenticate (NewMailer "h" 587 "u" "pw") { startTLSSupported := false }).1 :=
  C10_no_auth_extension_skips_authentication (NewMailer "h" 587 "u" "pw")
    { startTLSSupported := false } rfl (by decide) rfl rfl rfl (Or.inl rfl) (Or.inr (Or.inl rfl))

/-- C6 (failing input): the claim says a port-465 configuration never
queries nor issues STARTTLS, and the function's own documentation agrees
("If the port is not 465, it checks for the STARTTLS extension"), but
the code gates the STARTTLS block on the separate `sslEnabled` flag:
`NewMailer` on port 465 without `WithSSLEnabled` wraps the connection in
TLS and then still queries the STARTTLS extension and issues STARTTLS. -/
theorem C6_port465_still_queries_starttls :
    c6Mailer.Port = sslPort ∧ c6Mailer.sslEnabled = false ∧
    (ConnectAndAuthenticate c6Mailer c6Server).1.take 2 = [Event.dial, Event.tlsWrap] ∧
    Event.extensionQuery "STARTTLS" ∈ (ConnectAndAuthenticate c6Mailer c6Server).1 ∧
    Event.startTLSCmd ∈ (ConnectAndAuthenticate c6Mailer c6Server).1 := by
  decide

/-- After a successful dial, client construction and greeting,
`ConnectAndAuthenticate` behaves as the STARTTLS section preceded by a
close-free prefix of bootstrap events. -/
theorem connect_trace_decomposition (m : Mailer) (srv : ServerBehavior)
    (hdial : srv.dialErr = none) (hclient : srv.clientErr = none)
    (hhello : m.localName = "" ∨ srv.helloErr = none) :
    ∃ front : List Event,
      ConnectAndAuthenticate m srv =
        (front ++ (negotiateStartTLS m srv).1, (negotiateStartTLS m srv).2) ∧
      Event.close ∉ front := by
  by_cases hl : m.localName = ""
  · refine ⟨[Event.dial] ++ (if m.Port = sslPort then [Event.tlsWrap] else []) ++
      [Event.newClient], ?_, ?_⟩
    · simp only [ConnectAndAuthenticate, hdial, hclient, hl]
      simp
    · by_cases hp : m.Port = sslPort <;> simp [hp]
  · rcases hhello with h | h
    · exact absurd h hl
    · refine ⟨[Event.dial] ++ (if m.Port = sslPort then [Event.tlsWrap] else []) ++
        [Event.newClient, Event.hello m.localName], ?_, ?_⟩
      · simp only [ConnectAndAuthenticate, hdial, hclient, hl, h]
        simp [hl]
      · by_cases hp : m.Port = sslPort <;> simp [hp]

/-- A list ending in a close event has `close` as its last element and,
when `close` is absent from the rest, counts it exactly once. -/
theorem close_last_and_once (l : List Event) (hl : Event.close ∉ l) :
    (l ++ [Event.close]).count Event.close = 1 ∧
    (l ++ [Event.close]).getLast? = some Event.close := by
  constructor
  · simp [List.count_append, List.count_eq_zero.mpr hl]
  · simp

/-- C8: a dial failure is returned wrapping the underlying cause; a
STARTTLS failure closes the transport exactly once (as the last action)
before the wrapped STARTTLS error is returned; an authentication
failure likewise closes the transport exactly once before the wrapped
authentication error is returned. -/
theorem C8_failure_paths_close_transport (m : Mailer) (srv : ServerBehavior) (e : String) :
    (srv.dialErr = some e →
      ConnectAndAuthenticate m srv =
        ([Event.dial], Except.error ("failed to dial to smtp server: " ++ e))) ∧
    (srv.dialErr = none → srv.clientErr = none →
     (m.localName = "" ∨ srv.helloErr = none) →
     m.sslEnabled = false → srv.startTLSSupported = true → srv.startTLSErr = some e →
      (ConnectAndAuthenticate m srv).2 = Except.error ("failed to StartTLS: " ++ e) ∧
      (ConnectAndAuthenticate m srv).1.count Event.close = 1 ∧
      (ConnectAndAuthenticate m srv).1.getLast? = some Event.close) ∧
    (srv.dialErr = none → srv.clientErr = none →
     (m.localName = "" ∨ srv.helloErr = none) →
     (m.sslEnabled = true ∨ srv.startTLSSupported = false ∨ srv.startTLSErr = none) →
     (m.auth.isSome ∨ (m.Username ≠ "" ∧ srv.authSupported = true)) →
     srv.authErr = some e →
      (ConnectAndAuthenticate m srv).2 =
        Except.error ("failed to authenticate with smtp server: " ++ e) ∧
      (ConnectAndAuthenticate m srv).1.count Event.close = 1 ∧
      (ConnectAndAuthenticate m srv).1.getLast? = some Event.close) := by
  refine ⟨?_, ?_, ?_⟩
  · intro h; simp [ConnectAndAuthenticate, h]
  · intro hdial hclient hhello hssl hsupp herr
    have hneg : negotiateStartTLS m srv =
        ([Event.extensionQuery "STARTTLS", Event.startTLSCmd] ++ [Event.close],
         Except.error ("failed to StartTLS: " ++ e)) := by
      simp [negotiateStartTLS, hssl, hsupp, herr]
    rcases connect_trace_decomposition m srv hdial hclient hhello with ⟨front, hc, hfront⟩
    rw [hc, hneg]
    have hfr : Event.close ∉ front ++ [Event.extensionQuery "STARTTLS", Event.startTLSCmd] := by
      simp [hfront]
    have := close_last_and_once _ hfr
    refine ⟨rfl, ?_, ?_⟩
    · simpa [List.append_assoc] using this.1
    · simp [List.append_assoc]
  · intro hdial hclient hhello htls hmech herr
    have hneg : ∃ pre : List Event,
        negotiateAuth m srv = (pre ++ [Event.close],
          Except.error ("failed to authenticate with smtp server: " ++ e)) ∧
        Event.close ∉ pre := by
      rcases hmech with hsome | ⟨huser, hsupp⟩
      · rcases ha : m.auth with _ | a
        · rw [ha] at hsome; simp at hsome
        · refine ⟨[Event.authCmd a], ?_, by simp⟩
          simp [negotiateAuth, ha, herr]
      · rcases ha : m.auth with _ | a
        · by_cases hcrm : strContains srv.authParams crmAuthMechanism = true
          · refine ⟨[Event.extensionQuery "AUTH",
              Event.authCmd (AuthMech.cramMD5 m.Username m.secrets)], ?_, by simp⟩
            simp [negotiateAuth, authenticationMechanism, ha, huser, hsupp, hcrm, herr]
          · by_cases hpl : strContains srv.authParams plainAuthMechanism = true
            · refine ⟨[Event.extensionQuery "AUTH",
                Event.authCmd (AuthMech.plain "" m.Username m.Password m.Host)], ?_, by simp⟩
              simp [negotiateAuth, authenticationMechanism, ha, huser, hsupp, hcrm, hpl, herr]
            · refine ⟨[Event.extensionQuery "AUTH",
                Event.authCmd (AuthMech.login m.Username m.Password)], ?_, by simp⟩
              simp [negotiateAuth, authenticationMechanism, ha, huser, hsupp, hcrm, hpl, herr]
        · refine ⟨[Event.authCmd a], ?_, by simp⟩
          simp [negotiateAuth, ha, herr]
    rcases hneg with ⟨pre, hneg, hpre⟩
    have hst : ∃ pre2 : List Event,
        negotiateStartTLS m srv = (pre2 ++ [Event.close],
          Except.error ("failed to authenticate with smtp server: " ++ e)) ∧
        Event.close ∉ pre2 := by
      rcases htls with h | h | h
      · exact ⟨pre, by simp [negotiateStartTLS, h, hneg], hpre⟩
      · cases hssl : m.sslEnabled
        · refine ⟨Event.extensionQuery "STARTTLS" :: pre, ?_, by simp [hpre]⟩
          simp [negotiateStartTLS, hssl, h, hneg]
        · exact ⟨pre, by simp [negotiateStartTLS, hssl, hneg], hpre⟩
      · cases hssl : m.sslEnabled
        · cases hsupp2 : srv.startTLSSupported
          · refine ⟨Event.extensionQuery "STARTTLS" :: pre, ?_, by simp [hpre]⟩
            simp [negotiateStartTLS, hssl, hsupp2, hneg]
          · refine ⟨Event.extensionQuery "STARTTLS" :: Event.startTLSCmd :: pre, ?_,
              by simp [hpre]⟩
            simp [negotiateStartTLS, hssl, hsupp2, h, hneg]
        · exact ⟨pre, by simp [negotiateStartTLS, hssl, hneg], hpre⟩
    rcases hst with ⟨pre2, hst, hpre2⟩
    rcases connect_trace_decomposition m srv hdial hclient hhello with ⟨front, hc, hfront⟩
    rw [hc, hst]
    have hfr : Event.close ∉ front ++ pre2 := by
      simp [hfront, hpre2]
    have := close_last_and_once _ hfr
    refine ⟨rfl, ?_, ?_⟩
    · simpa [List.append_assoc] using this.1
    · simp [List.append_assoc]

/-- Witness for C8: concrete runs hitting the dial-failure, the
STARTTLS-failure and the authentication-failure paths. -/
theorem C8_failure_paths_close_transport_witness :
    ConnectAndAuthenticate (NewMailer "h" 587 "u" "pw") { dialErr := some "refused" } =
      ([Event.dial], Except.error ("failed to dial to smtp server: " ++ "refused")) ∧
    ((ConnectAndAuthenticate (NewMailer "h" 587 "u" "pw")
        { startTLSSupported := true, startTLSErr := some "boom" }).2 =
      Except.error ("failed to StartTLS: " ++ "boom") ∧
     (ConnectAndAuthenticate (NewMailer "h" 587 "u" "pw")
        { startTLSSupported := true, startTLSErr := some "boom" }).1.count Event.close = 1 ∧
     (ConnectAndAuthenticate (NewMailer "h" 587 "u" "pw")
        { startTLSSupported := true, startTLSErr := some "boom" }).1.getLast? =
       some Event.close) ∧
    ((ConnectAndAuthenticate (NewMailer "h" 587 "u" "pw")
        { authSupported := true, authParams := "PLAIN", authErr := some "denied" }).2 =
      Except.error ("failed to authenticate with smtp server: " ++ "denied") ∧
     (ConnectAndAuthenticate (NewMailer "h" 587 "u" "pw")
        { authSupported := true, authParams := "PLAIN", authErr := some "denied" }).1.count
          Event.close = 1 ∧
     (ConnectAndAuthenticate (NewMailer "h" 587 "u" "pw")
        { authSupported := true, authParams := "PLAIN", authErr := some "denied" }).1.getLast? =
       some Event.close) :=
  ⟨(C8_failure_paths_close_transport (NewMailer "h" 587 "u" "pw")
      { dialErr := some "refused" } "refused").1 rfl,
   (C8_failure_paths_close_transport (NewMailer "h" 587 "u" "pw")
      { startTLSSupported := true, startTLSErr := some "boom" } "boom").2.1
      rfl rfl (Or.inl rfl) rfl rfl rfl,
   (C8_failure_paths_close_transport (NewMailer "h" 587 "u" "pw")
      { authSupported := true, authParams := "PLAIN", authErr := some "denied" } "denied").2.2
      rfl rfl (Or.inl rfl) (Or.inr (Or.inl rfl)) (Or.inr ⟨by decide, rfl⟩) rfl⟩

/-- When every recipient is accepted, the RCPT loop issues one RCPT per
recipient, in order, and reports no error. -/
theorem rcptLoop_all_accepted (srv : SendServer) (rs : List String)
    (h : ∀ r ∈ rs, srv.rcptErr r = none) :
    rcptLoop srv rs = (rs.map SendEvent.rcptCmd, none) := by
  induction rs with
  | nil => rfl
  | cons r rs ih =>
    have hr : srv.rcptErr r = none := h r (by simp)
    have := ih (fun x hx => h x (by simp [hx]))
    simp [rcptLoop, hr, this]

/-- C7 counterexample: with a healthy command layer and a message whose
validation fails (empty From), `Send` opens the data stream, returns
the encoding error, and never closes the opened data stream — the
deferred close is registered only after the write, which is never
reached. -/
theorem C7_counterexample :
    (mailSenderSend sampleParseErr c7SendServer c7Message []).2 =
      some "failed to send message: failed to encode message: from address cannot be empty" ∧
    SendEvent.dataCmd ∈ (mailSenderSend sampleParseErr c7SendServer c7Message []).1 ∧
    SendEvent.closeWriter ∉ (mailSenderSend sampleParseErr c7SendServer c7Message []).1 := by
  decide

/-- C7 (amended): when encoding/validation fails after the data stream
was opened, `Send` returns the encoding error but does *not* attempt to
close the opened data stream (no close event occurs in the run). -/
theorem C7_encoding_failure_leaves_stream_open (parseErr : String → Option String)
    (srv : SendServer) (m : Message) (order : List (String × List String)) (e : String)
    (hmail : srv.mailErr = none) (hrcpt : ∀ r ∈ m.Recipients, srv.rcptErr r = none)
    (hdata : srv.dataErr = none) (hval : validate parseErr m = some e) :
    (mailSenderSend parseErr srv m order).2 =
      some ("failed to send message: " ++ ("failed to encode message: " ++ e)) ∧
    SendEvent.dataCmd ∈ (mailSenderSend parseErr srv m order).1 ∧
    SendEvent.closeWriter ∉ (mailSenderSend parseErr srv m order).1 := by
  have henc : MessageEncode parseErr m order =
      Except.error ("failed to encode message: " ++ e) := by
    simp [MessageEncode, hval]
  have hloop := rcptLoop_all_accepted srv m.Recipients hrcpt
  refine ⟨?_, ?_, ?_⟩ <;>
    simp [mailSenderSend, hmail, hloop, hdata, henc, List.mem_append, List.mem_map]

/-- Witness for C7 (amended) at a concrete run. -/
theorem C7_encoding_failure_leaves_stream_open_witness :
    (mailSenderSend sampleParseErr { } { From := "nope", Recipients := ["a@b.c"] } []).2 =
      some ("failed to send message: " ++
        ("failed to encode message: " ++
          ("invalid from address: " ++ "mail: missing '@' or angle-addr"))) ∧
    SendEvent.dataCmd ∈
      (mailSenderSend sampleParseErr { } { From := "nope", Recipients := ["a@b.c"] } []).1 ∧
    SendEvent.closeWriter ∉
      (mailSenderSend sampleParseErr { } { From := "nope", Recipients := ["a@b.c"] } []).1 :=
  C7_encoding_failure_leaves_stream_open sampleParseErr { } { From := "nope", Recipients := ["a@b.c"] }
    [] ("invalid from address: " ++ "mail: missing '@' or angle-addr")
    rfl (by intro r hr; simp at hr; subst hr; decide) rfl (by decide)

/-- When every recipient parses, the recipient loop of `validate`
reports no error. -/
theorem firstRecipientError_all_ok (parseErr : String → Option String) (rs : List String)
    (h : ∀ r ∈ rs, parseErr r = none) :
    firstRecipientError parseErr rs = none := by
  induction rs with
  | nil => rfl
  | cons r rs ih =>
    have hr : parseErr r = none := h r (by simp)
    simp [firstRecipientError, hr, ih (fun x hx => h x (by simp [hx]))]

/-- The recipient loop stops at the first failing recipient and names
its address. -/
theorem firstRecipientError_first_bad (parseErr : String → Option String)
    (good : List String) (r : String) (rest : List String) (e : String)
    (hgood : ∀ g ∈ good, parseErr g = none) (hr : parseErr r = some e) :
    firstRecipientError parseErr (good ++ r :: rest) =
      some ("given " ++ r ++ " is invalid recipient email: " ++ e) := by
  induction good with
  | nil => simp [firstRecipientError, hr]
  | cons g gs ih =>
    have hg : parseErr g = none := hgood g (by simp)
    simp [firstRecipientError, hg, ih (fun x hx => hgood x (by simp [hx]))]

/-- C5: `Encode` validates before encoding and fails (producing no
bytes) exactly on validation failure: empty From gives the
"from address cannot be empty" error; an unparseable From gives the
wrapped address-parse error; empty Recipients gives the
recipients-empty error; the first unparseable recipient gives the error
naming that recipient's address string; otherwise `Encode` succeeds
with the encoded bytes.  Quantified over every behaviour of the
external `mail.ParseAddress` collaborator. -/
theorem C5_encode_validates_first (parseErr : String → Option String) (m : Message)
    (order : List (String × List String)) :
    (m.From = "" →
      MessageEncode parseErr m order =
        Except.error "failed to encode message: from address cannot be empty") ∧
    (∀ e, m.From ≠ "" → parseErr m.From = some e →
      MessageEncode parseErr m order =
        Except.error ("failed to encode message: " ++ ("invalid from address: " ++ e))) ∧
    (m.From ≠ "" → parseErr m.From = none → m.Recipients = [] →
      MessageEncode parseErr m order =
        Except.error "failed to encode message: recipients cannot be empty slice") ∧
    (∀ good r rest e, m.From ≠ "" → parseErr m.From = none →
      m.Recipients = good ++ r :: rest →
      (∀ g ∈ good, parseErr g = none) → parseErr r = some e →
      MessageEncode parseErr m order =
        Except.error ("failed to encode message: " ++
          ("given " ++ r ++ " is invalid recipient email: " ++ e))) ∧
    (m.From ≠ "" → parseErr m.From = none → m.Recipients ≠ [] →
      (∀ r ∈ m.Recipients, parseErr r = none) →
      MessageEncode parseErr m order = Except.ok (encode m order)) := by
  refine ⟨?_, ?_, ?_, ?_, ?_⟩
  · intro h; simp [MessageEncode, validate, h]
  · intro e h he; simp [MessageEncode, validate, h, he]
  · intro h he hrec; simp [MessageEncode, validate, h, he, hrec]
  · intro good r rest e h he hrec hgood hr
    have hne : m.Recipients ≠ [] := by simp [hrec]
    simp [MessageEncode, validate, h, he, hne, hrec,
      firstRecipientError_first_bad parseErr good r rest e hgood hr]
  · intro h he hne hall
    simp [MessageEncode, validate, h, he, hne, firstRecipientError_all_ok parseErr _ hall]

/-- Witness for C5: the four failure classes and the success case at
concrete messages, with the parser behaving as `mail.ParseAddress` does
on these inputs. -/
theorem C5_encode_validates_first_witness :
    MessageEncode sampleParseErr { From := "" } [] =
      Except.error "failed to encode message: from address cannot be empty" ∧
    MessageEncode sampleParseErr { From := "invalid" } [] =
      Except.error ("failed to encode message: " ++
        ("invalid from address: " ++ "mail: missing '@' or angle-addr")) ∧
    MessageEncode sampleParseErr { From := "a@b.c" } [] =
      Except.error "failed to encode message: recipients cannot be empty slice" ∧
    MessageEncode sampleParseErr { From := "a@b.c", Recipients := ["x@y.z", "gomailerAddr"] } [] =
      Except.error ("failed to encode message: " ++
        ("given " ++ "gomailerAddr" ++ " is invalid recipient email: " ++
          "mail: missing '@' or angle-addr")) ∧
    MessageEncode sampleParseErr { From := "a@b.c", Recipients := ["x@y.z"] } [] =
      Except.ok (encode { From := "a@b.c", Recipients := ["x@y.z"] } []) :=
  ⟨(C5_encode_validates_first sampleParseErr { From := "" } []).1 rfl,
   (C5_encode_validates_first sampleParseErr { From := "invalid" } []).2.1
     "mail: missing '@' or angle-addr" (by decide) (by decide),
   (C5_encode_validates_first sampleParseErr { From := "a@b.c" } []).2.2.1
     (by decide) (by decide) rfl,
   (C5_encode_validates_first sampleParseErr
       { From := "a@b.c", Recipients := ["x@y.z", "gomailerAddr"] } []).2.2.2.1
     ["x@y.z"] "gomailerAddr" [] "mail: missing '@' or angle-addr"
     (by decide) (by decide) rfl (by intro g hg; simp at hg; subst hg; decide) (by decide),
   (C5_encode_validates_first sampleParseErr
       { From := "a@b.c", Recipients := ["x@y.z"] } []).2.2.2.2
     (by decide) (by decide) (by decide) (by intro r hr; simp at hr; subst hr; decide)⟩

/-- Appending the empty string on either side is the identity. -/
theorem strAppend_empty (s : String) : s ++ "" = s ∧ "" ++ s = s := by
  cases s with
  | mk d => exact ⟨String.ext (by simp [String.data_append]), String.ext (by simp [String.data_append])⟩

/-- The characters of a stringified character list. -/
theorem data_asString (l : List Char) : (List.asString l).data = l := rfl

/-- The empty character list stringifies to the empty string. -/
theorem asString_nil : List.asString ([] : List Char) = "" := rfl

/-- `List.asString` turns list concatenation into string concatenation. -/
theorem asString_append (a b : List Char) :
    List.asString (a ++ b) = List.asString a ++ List.asString b :=
  String.ext (by simp [String.data_append, data_asString])

/-- Folding string concatenation over stringified chunks concatenates
the chunks. -/
theorem strJoin_foldl (l : List (List Char)) : ∀ acc : String,
    List.foldl (· ++ ·) acc (l.map List.asString) = acc ++ List.asString l.flatten := by
  induction l with
  | nil =>
    intro acc
    rw [List.map_nil, List.foldl_nil, List.flatten_nil, asString_nil, (strAppend_empty acc).1]
  | cons a l ih =>
    intro acc
    simp only [List.map_cons, List.foldl_cons, ih]
    rw [List.flatten_cons, asString_append, ← String.append_assoc]

/-- `String.join` of stringified chunks is the stringified
concatenation. -/
theorem strJoin_map_asString (l : List (List Char)) :
    String.join (l.map List.asString) = List.asString l.flatten := by
  have := strJoin_foldl l ""
  simpa [String.join, (strAppend_empty (List.asString l.flatten)).2] using this

/-- The chunks produced by the `splitLines` loop concatenate to the
input (with enough fuel for a positive chunk size). -/
theorem splitLinesL_join (N : Nat) (hN : 0 < N) : ∀ (fuel : Nat) (l : List Char),
    l.length ≤ fuel + N → (splitLinesL N fuel l).flatten = l := by
  intro fuel
  induction fuel with
  | zero => intro l _; simp [splitLinesL]
  | succ fuel ih =>
    intro l hl
    by_cases h : N < l.length
    · have hdrop : (l.drop N).length ≤ fuel + N := by
        simp only [List.length_drop]
        omega
      simp [splitLinesL, h, ih (l.drop N) hdrop]
    · simp [splitLinesL, h]

/-- Every chunk produced by the `splitLines` loop has length at most
the chunk size. -/
theorem splitLinesL_chunk_length (N : Nat) (hN : 0 < N) : ∀ (fuel : Nat) (l : List Char),
    l.length ≤ fuel + N → ∀ c ∈ splitLinesL N fuel l, c.length ≤ N := by
  intro fuel
  induction fuel with
  | zero =>
    intro l hl c hc
    simp only [splitLinesL, List.mem_singleton] at hc
    subst hc; omega
  | succ fuel ih =>
    intro l hl c hc
    by_cases h : N < l.length
    · simp only [splitLinesL, h, if_true, List.mem_cons] at hc
      rcases hc with hc | hc
      · subst hc; simp
      · have hdrop : (l.drop N).length ≤ fuel + N := by
          simp only [List.length_drop]; omega
        exact ih (l.drop N) hdrop c hc
    · simp only [splitLinesL, h, if_false, List.mem_singleton] at hc
      subst hc; omega

/-- A length between 1 and the chunk size gives ceiling quotient 1. -/
theorem ceilDiv_of_le (len N : Nat) (h1 : 1 ≤ len) (h2 : len ≤ N) :
    (len + N - 1) / N = 1 := by
  have hlo : 1 * N ≤ len + N - 1 := by omega
  have hhi : len + N - 1 < (1 + 1) * N := by omega
  exact Nat.div_eq_of_lt_le hlo hhi

/-- The number of chunks produced by the `splitLines` loop: one chunk
for the empty input, otherwise the ceiling of length over chunk size. -/
theorem splitLinesL_length (N : Nat) (hN : 0 < N) : ∀ (fuel : Nat) (l : List Char),
    l.length ≤ fuel + N →
    (splitLinesL N fuel l).length = if l.length = 0 then 1 else (l.length + N - 1) / N := by
  intro fuel
  induction fuel with
  | zero =>
    intro l hl
    simp only [splitLinesL, List.length_singleton]
    by_cases h0 : l.length = 0
    · simp [h0]
    · rw [if_neg h0, ceilDiv_of_le l.length N (by omega) (by omega)]
  | succ fuel ih =>
    intro l hl
    by_cases h : N < l.length
    · have hdrop : (l.drop N).length ≤ fuel + N := by
        simp only [List.length_drop]; omega
      have hrec := ih (l.drop N) hdrop
      have hne : (l.drop N).length ≠ 0 := by
        simp only [List.length_drop]; omega
      rw [if_neg hne] at hrec
      have h0 : l.length ≠ 0 := by omega
      simp only [splitLinesL, h, if_true, List.length_cons, hrec, List.length_drop, if_neg h0]
      have heq : l.length - N + N - 1 = l.length - 1 := by omega
      have heq2 : l.length + N - 1 = (l.length - 1) + N := by omega
      rw [heq, heq2, Nat.add_div_right _ hN]
    · simp only [splitLinesL, h, if_false, List.length_singleton]
      by_cases h0 : l.length = 0
      · simp [h0]
      · rw [if_neg h0, ceilDiv_of_le l.length N (by omega) (by omega)]

/-- C3 counterexample: on the empty string the claimed chunk count
fails — `splitLines("", 1)` returns one (empty) chunk while
⌈0/1⌉ = 0. -/
theorem C3_counterexample :
    splitLines "" 1 = [""] ∧ (splitLines "" 1).length = 1 ∧
    (String.length "" + 1 - 1) / 1 = 0 ∧
    (splitLines "" 1).length ≠ (String.length "" + 1 - 1) / 1 := by
  decide

/-- C3 (amended): for every string `s` and positive chunk size `N`,
`splitLines(s, N)` produces chunks of length at most `N` whose
concatenation is `s`; the number of chunks is ⌈L/N⌉ (computed as
`(L + N - 1) / N`) for nonempty `s`, and 1 — a single empty chunk —
for empty `s` (where ⌈0/N⌉ = 0, so the original count claim fails only
there). -/
theorem C3_splitLines_chunks (s : String) (N : Nat) (hN : 0 < N) :
    String.join (splitLines s N) = s ∧
    (∀ c ∈ splitLines s N, c.length ≤ N) ∧
    (splitLines s N).length = if s.length = 0 then 1 else (s.length + N - 1) / N := by
  have hfuel : s.data.length ≤ s.length + N := Nat.le_add_right _ _
  refine ⟨?_, ?_, ?_⟩
  · rw [splitLines, strJoin_map_asString, splitLinesL_join N hN s.length s.data hfuel]
    exact String.ext rfl
  · intro c hc
    rw [splitLines, List.mem_map] at hc
    rcases hc with ⟨c0, hc0, rfl⟩
    exact splitLinesL_chunk_length N hN s.length s.data hfuel c0 hc0
  · rw [splitLines, List.length_map, splitLinesL_length N hN s.length s.data hfuel]
    rfl

/-- Witness for C3 (amended): `"input"` split at size 2 gives three
chunks of at most 2 characters that concatenate back. -/
theorem C3_splitLines_chunks_witness :
    String.join (splitLines "input" 2) = "input" ∧
    (∀ c ∈ splitLines "input" 2, c.length ≤ 2) ∧
    (splitLines "input" 2).length =
      if String.length "input" = 0 then 1 else (String.length "input" + 2 - 1) / 2 :=
  C3_splitLines_chunks "input" 2 (by decide)

/-- C2 counterexample: the extra-header map is emitted by iterating a
Go map, whose order is unspecified; two runs over the same two-entry
map, in the two possible orders, produce different byte sequences. -/
theorem C2_counterexample :
    List.Perm c2Order1 c2Message.Headers ∧ List.Perm c2Order2 c2Message.Headers ∧
    encode c2Message c2Order1 ≠ encode c2Message c2Order2 := by
  decide

/-- C2 (amended): `encode` is deterministic whenever the extra-header
map has at most one entry — any two runs (any two iteration orders of
the map) produce byte-identical output; with two or more entries the
output depends on the iteration order. -/
theorem C2_encode_deterministic_small_header_map (m : Message)
    (o1 o2 : List (String × List String))
    (h1 : List.Perm o1 m.Headers) (h2 : List.Perm o2 m.Headers)
    (hlen : m.Headers.length ≤ 1) :
    encode m o1 = encode m o2 := by
  have ho : o1 = o2 := by
    rcases hH : m.Headers with _ | ⟨x, xs⟩
    · rw [hH] at h1 h2
      have e1 : o1 = [] := List.length_eq_zero.mp (by simpa using h1.length_eq)
      have e2 : o2 = [] := List.length_eq_zero.mp (by simpa using h2.length_eq)
      rw [e1, e2]
    · rcases xs with _ | ⟨y, ys⟩
      · rw [hH] at h1 h2
        have e1 : o1 = [x] := List.Perm.eq_singleton h1
        have e2 : o2 = [x] := List.Perm.eq_singleton h2
        rw [e1, e2]
      · rw [hH] at hlen; simp at hlen
  rw [ho]

/-- Witness for C2 (amended) at a one-entry header map. -/
theorem C2_encode_deterministic_small_header_map_witness :
    encode { From := "a@b.c", Headers := [("A", ["1"])] } [("A", ["1"])] =
      encode { From := "a@b.c", Headers := [("A", ["1"])] } [("A", ["1"])] :=
  C2_encode_deterministic_small_header_map { From := "a@b.c", Headers := [("A", ["1"])] }
    [("A", ["1"])] [("A", ["1"])] (List.Perm.refl _) (List.Perm.refl _) (by decide)

/-- `List.isPrefixOf` decides the "starts with" relation. -/
theorem isPrefixOf_eq_true_iff : ∀ (p s : List Char), p.isPrefixOf s = true ↔ ∃ r, s = p ++ r := by
  intro p
  induction p with
  | nil => intro s; simp [List.isPrefixOf]
  | cons a as ih =>
    intro s
    cases s with
    | nil => simp [List.isPrefixOf]
    | cons b bs =>
      simp only [List.isPrefixOf, Bool.and_eq_true, beq_iff_eq, ih bs]
      constructor
      · rintro ⟨rfl, r, rfl⟩; exact ⟨r, rfl⟩
      · rintro ⟨r, hr⟩
        rw [List.cons_append] at hr
        cases hr
        exact ⟨rfl, r, rfl⟩

/-- `occursB` decides the substring relation `OccursIn`. -/
theorem occursB_eq_true_iff : ∀ (s p : List Char), occursB p s = true ↔ OccursIn p s := by
  intro s
  induction s with
  | nil =>
    intro p
    simp only [occursB, List.isEmpty_iff, OccursIn]
    constructor
    · rintro rfl; exact ⟨[], [], rfl⟩
    · rintro ⟨l, r, h⟩
      rcases List.append_eq_nil.mp h.symm with ⟨h1, h2⟩
      exact (List.append_eq_nil.mp h1).2
  | cons c s ih =>
    intro p
    simp only [occursB, Bool.or_eq_true, isPrefixOf_eq_true_iff, ih]
    constructor
    · rintro (⟨r, hr⟩ | ⟨l, r, rfl⟩)
      · exact ⟨[], r, by simpa using hr⟩
      · exact ⟨c :: l, r, rfl⟩
    · rintro ⟨l, r, h⟩
      cases l with
      | nil => exact Or.inl ⟨r, by simpa using h⟩
      | cons d l =>
        rw [List.cons_append, List.cons_append] at h
        cases h
        exact Or.inr ⟨l, r, rfl⟩

/-- `occursB = false` states absence of the substring. -/
theorem occursB_eq_false_iff (s p : List Char) : occursB p s = false ↔ ¬ OccursIn p s := by
  rw [← occursB_eq_true_iff s p, Bool.eq_false_iff]

/-- A nonempty pattern does not occur in the empty list. -/
theorem noOccurs_nil {p : List Char} (hp : p ≠ []) : ¬ OccursIn p [] := by
  rintro ⟨l, r, h⟩
  rcases List.append_eq_nil.mp h.symm with ⟨h1, _⟩
  exact hp (List.append_eq_nil.mp h1).2

/-- Two decompositions of the same concatenation: the split point of
one lies inside the first or the second part of the other. -/
theorem preSplit : ∀ (a b p r : List Char), a ++ b = p ++ r →
    (∃ r1, a = p ++ r1 ∧ r = r1 ++ b) ∨ (∃ p2, p = a ++ p2 ∧ b = p2 ++ r) := by
  intro a
  induction a with
  | nil =>
    intro b p r h
    exact Or.inr ⟨p, rfl, h⟩
  | cons c a ih =>
    intro b p r h
    cases p with
    | nil =>
      exact Or.inl ⟨c :: a, rfl, h.symm⟩
    | cons d p =>
      rw [List.cons_append, List.cons_append] at h
      injection h with h1 h2
      subst h1
      rcases ih b p r h2 with ⟨r1, hr1, hr2⟩ | ⟨p2, hp2, hb⟩
      · exact Or.inl ⟨r1, by rw [hr1, List.cons_append], hr2⟩
      · exact Or.inr ⟨p2, by rw [hp2, List.cons_append], hb⟩

/-- An occurrence in a concatenation lies in the left part, the right
part, or straddles the junction with a nonempty piece on each side. -/
theorem occursIn_append_cases {p a b : List Char} (h : OccursIn p (a ++ b)) :
    OccursIn p a ∨ OccursIn p b ∨
    ∃ p1 p2, p = p1 ++ p2 ∧ p1 ≠ [] ∧ p2 ≠ [] ∧ (∃ l, a = l ++ p1) ∧ (∃ r, b = p2 ++ r) := by
  rcases h with ⟨l, r, hlr⟩
  have hlr2 : a ++ b = (l ++ p) ++ r := by rw [hlr, List.append_assoc]
  rcases preSplit a b (l ++ p) r hlr2 with ⟨r1, ha, _⟩ | ⟨p2, hlp, hb⟩
  · exact Or.inl ⟨l, r1, by rw [ha, List.append_assoc]⟩
  · rcases preSplit l p a p2 hlp with ⟨t, _, hp2⟩ | ⟨q, ha, hp⟩
    · exact Or.inr (Or.inl ⟨t, r, by rw [hb, hp2, List.append_assoc]⟩)
    · cases hq : q with
      | nil =>
        subst hq
        rw [List.append_nil] at ha
        have hp2 : p = p2 := by simpa using hp
        exact Or.inr (Or.inl ⟨[], r, by rw [hb, hp2, List.nil_append]⟩)
      | cons q0 qs =>
        cases hp2e : p2 with
        | nil =>
          subst hp2e
          rw [List.append_nil] at hp
          exact Or.inl ⟨l, [], by rw [ha, hp, List.append_nil]⟩
        | cons x xs =>
          exact Or.inr (Or.inr ⟨q, p2, hp, by rw [hq]; exact List.cons_ne_nil q0 qs,
            by rw [hp2e]; exact List.cons_ne_nil x xs, ⟨l, ha⟩, ⟨r, hb⟩⟩)

/-- Every nonempty list ends in its last element. -/
theorem exists_concat_of_getLast? : ∀ (l : List Char) (c : Char),
    l.getLast? = some c → ∃ l0, l = l0 ++ [c] := by
  intro l
  induction l with
  | nil => intro c h; simp at h
  | cons a l ih =>
    intro c h
    cases l with
    | nil =>
      simp only [List.getLast?_singleton, Option.some.injEq] at h
      exact ⟨[], by simp [h]⟩
    | cons b t =>
      rw [List.getLast?_cons_cons] at h
      rcases ih c h with ⟨l0, hl0⟩
      exact ⟨a :: l0, by rw [hl0, List.cons_append]⟩

/-- No occurrence can straddle a junction whose left side ends in a
character that the pattern does not contain. -/
theorem noOccurs_append_left {p a b : List Char} {c : Char}
    (ha0 : ∃ a0, a = a0 ++ [c]) (hc : c ∉ p)
    (ha : ¬ OccursIn p a) (hb : ¬ OccursIn p b) : ¬ OccursIn p (a ++ b) := by
  intro h
  rcases occursIn_append_cases h with h | h | ⟨p1, p2, hp, h1, _, ⟨l, hl⟩, _⟩
  · exact ha h
  · exact hb h
  · rcases ha0 with ⟨a0, ha0⟩
    rcases List.eq_nil_or_concat p1 with rfl | ⟨p0, d, rfl⟩
    · exact h1 rfl
    · rw [List.concat_eq_append] at hp hl
      have he : a0 ++ [c] = (l ++ p0) ++ [d] := by
        rw [← ha0, hl, List.append_assoc]
      have hcd : c = d := by
        have := congrArg List.getLast? he
        simpa using this
      apply hc
      rw [hp, hcd]
      simp
/-- No occurrence can straddle a junction whose right side starts with
a character that the pattern does not contain. -/
theorem noOccurs_append_right {p a b : List Char} {c : Char}
    (hb0 : ∃ b0, b = c :: b0) (hc : c ∉ p)
    (ha : ¬ OccursIn p a) (hb : ¬ OccursIn p b) : ¬ OccursIn p (a ++ b) := by
  intro h
  rcases occursIn_append_cases h with h | h | ⟨p1, p2, hp, _, h2, _, ⟨r, hr⟩⟩
  · exact ha h
  · exact hb h
  · rcases hb0 with ⟨b0, hb0⟩
    cases p2 with
    | nil => exact h2 rfl
    | cons d p2' =>
      have hcd : c = d := by
        rw [hb0, List.cons_append] at hr
        exact (List.cons.inj hr).1
      apply hc
      rw [hp, hcd]
      simp

/-- The CRLF terminator as characters. -/
theorem crlf_data : crlf.data = ['\r', '\n'] := by decide

/-- Anything ending in a CRLF ends in a newline. -/
theorem endsNl_of_crlf_tail (X : List Char) : ∃ l0, X ++ crlf.data = l0 ++ ['\n'] := by
  refine ⟨X ++ ['\r'], ?_⟩
  rw [crlf_data, List.append_assoc]
  rfl

/-- Package a substring-freeness proof and a CRLF-ended shape as a
`TailSafe` invariant. -/
theorem tailSafe_mk {p l : List Char} (X : List Char) (h1 : ¬ OccursIn p l)
    (h2 : l = X ++ crlf.data) : TailSafe p l :=
  ⟨h1, Or.inr (h2 ▸ endsNl_of_crlf_tail X)⟩

/-- `TailSafe` is preserved by concatenation when the pattern contains
no newline. -/
theorem tailSafe_append {p a b : List Char} (hn : '\n' ∉ p)
    (ha : TailSafe p a) (hb : TailSafe p b) : TailSafe p (a ++ b) := by
  rcases ha with ⟨hna, hea⟩
  rcases hb with ⟨hnb, heb⟩
  rcases hea with rfl | ⟨a0, rfl⟩
  · rw [List.nil_append]; exact ⟨hnb, heb⟩
  · refine ⟨noOccurs_append_left ⟨a0, rfl⟩ hn hna hnb, ?_⟩
    rcases heb with rfl | ⟨b0, rfl⟩
    · right; exact ⟨a0, by rw [List.append_nil]⟩
    · right; exact ⟨a0 ++ ['\n'] ++ b0, by simp⟩

/-- Absence of a substring, from the Boolean check. -/
theorem noOccursOfB {p s : List Char} (h : occursB p s = false) : ¬ OccursIn p s :=
  (occursB_eq_false_iff s p).mp h

/-- A `<label>: <addresses>CRLF` header line is `TailSafe` when the
pattern avoids space, carriage return and the line's components. -/
theorem tailSafe_addr_line {p : List Char} (hsp : ' ' ∉ p) (hr : '\r' ∉ p)
    (lit : String) (addrs : List String)
    (hlitEnd : ∃ l0, lit.data = l0 ++ [' '])
    (hlit : ¬ OccursIn p lit.data) (hjoin : ¬ OccursIn p (joinSep addrs).data)
    (hcrlfLit : ¬ OccursIn p crlf.data) :
    TailSafe p (lit ++ joinSep addrs ++ crlf).data := by
  have hdata : (lit ++ joinSep addrs ++ crlf).data =
      lit.data ++ ((joinSep addrs).data ++ crlf.data) := by
    simp [String.data_append, List.append_assoc]
  rw [hdata]
  refine tailSafe_mk (lit.data ++ (joinSep addrs).data) ?_ (by rw [List.append_assoc])
  exact noOccurs_append_left hlitEnd hsp hlit
    (noOccurs_append_right ⟨['\n'], by rw [crlf_data]⟩ hr hjoin hcrlfLit)

/-- The extra-header section (one `key: values` line per map entry) is
`TailSafe` when the pattern avoids the structural characters and every
key and joined value list. -/
theorem tailSafe_extraHeaders {p : List Char} (hp : p ≠ [])
    (hn : '\n' ∉ p) (hr : '\r' ∉ p) (hcolon : ':' ∉ p) (hsp : ' ' ∉ p)
    (hcolonLit : ¬ OccursIn p (": " : String).data)
    (hcrlfLit : ¬ OccursIn p crlf.data) :
    ∀ order : List (String × List String),
      (∀ kv ∈ order, ¬ OccursIn p kv.1.data ∧ ¬ OccursIn p (joinSep kv.2).data) →
      TailSafe p (extraHeadersStr order).data := by
  intro order
  induction order with
  | nil =>
    intro _
    exact ⟨noOccurs_nil hp, Or.inl rfl⟩
  | cons kv rest ih =>
    intro hkv
    have h1 : ¬ OccursIn p ((joinSep kv.2).data ++ crlf.data) :=
      noOccurs_append_right ⟨['\n'], by rw [crlf_data]⟩ hr (hkv kv (by simp)).2 hcrlfLit
    have h2 : ¬ OccursIn p ((": " : String).data ++ ((joinSep kv.2).data ++ crlf.data)) :=
      noOccurs_append_left ⟨[':'], by decide⟩ hsp hcolonLit h1
    have h3 : ¬ OccursIn p
        (kv.1.data ++ ((": " : String).data ++ ((joinSep kv.2).data ++ crlf.data))) := by
      refine noOccurs_append_right ⟨' ' :: ((joinSep kv.2).data ++ crlf.data), ?_⟩ hcolon
        (hkv kv (by simp)).1 h2
      rw [show (": " : String).data = [':', ' '] from by decide]
      rfl
    have hline : TailSafe p (extraHeaderLine kv).data := by
      have hdata : (extraHeaderLine kv).data =
          kv.1.data ++ ((": " : String).data ++ ((joinSep kv.2).data ++ crlf.data)) := by
        simp [extraHeaderLine, String.data_append, List.append_assoc]
      rw [hdata]
      refine tailSafe_mk
        (kv.1.data ++ ((": " : String).data ++ (joinSep kv.2).data)) h3 ?_
      simp [List.append_assoc]
    have hrest := ih (fun x hx => hkv x (by simp [hx]))
    have hd : (extraHeadersStr (kv :: rest)).data =
        (extraHeaderLine kv).data ++ (extraHeadersStr rest).data := by
      simp [extraHeadersStr, String.data_append]
    rw [hd]
    exact tailSafe_append hn hline hrest

/-- For an HTML-only message (no attachments, no plain body) the
encoder's whole output avoids any pattern that avoids the structural
characters, the fixed header literals, and the message's own fields —
in particular it contains no boundary marker. -/
theorem htmlOnly_no_marker {p : List Char} (m : Message)
    (order : List (String × List String))
    (hAtt : m.Attachments = []) (hBody : m.Body = "") (hHtml : m.HTMLBody ≠ "")
    (hp : p ≠ []) (hch : ∀ c ∈ ['\r', '\n', ' ', '?', ':'], c ∉ p)
    (hlits : ∀ s ∈ (["MIME-Version: 1.0", "Subject: ", "=?UTF-8?B?", "?=", "From: ",
      "Content-Type: " ++ htmlTypeContentType, "To: ", "Cc: ", "Bcc: ", ": ", crlf] :
        List String), occursB p s.data = false)
    (hFrom : ¬ OccursIn p m.From.data)
    (hTo : ¬ OccursIn p (joinSep m.Recipients).data)
    (hCc : ¬ OccursIn p (joinSep m.Cc).data)
    (hBcc : ¬ OccursIn p (joinSep m.Bcc).data)
    (hSubj : ¬ OccursIn p (encodeBase64 m.Subject).data)
    (hHtmlB : ¬ OccursIn p m.HTMLBody.data)
    (hHdr : ∀ kv ∈ order, ¬ OccursIn p kv.1.data ∧ ¬ OccursIn p (joinSep kv.2).data) :
    ¬ OccursIn p (encode m order).data := by
  have hcr : '\r' ∉ p := hch '\r' (by simp)
  have hnl : '\n' ∉ p := hch '\n' (by simp)
  have hsp : ' ' ∉ p := hch ' ' (by simp)
  have hq : '?' ∉ p := hch '?' (by simp)
  have hco : ':' ∉ p := hch ':' (by simp)
  have hmime : ¬ OccursIn p ("MIME-Version: 1.0" : String).data :=
    noOccursOfB (hlits _ (by simp))
  have hsubjLit : ¬ OccursIn p ("Subject: " : String).data :=
    noOccursOfB (hlits _ (by simp))
  have hutf : ¬ OccursIn p ("=?UTF-8?B?" : String).data :=
    noOccursOfB (hlits _ (by simp))
  have hqeq : ¬ OccursIn p ("?=" : String).data :=
    noOccursOfB (hlits _ (by simp))
  have hfromLit : ¬ OccursIn p ("From: " : String).data :=
    noOccursOfB (hlits _ (by simp))
  have hctLit : ¬ OccursIn p ("Content-Type: " ++ htmlTypeContentType : String).data :=
    noOccursOfB (hlits _ (by simp))
  have htoLit : ¬ OccursIn p ("To: " : String).data :=
    noOccursOfB (hlits _ (by simp))
  have hccLit : ¬ OccursIn p ("Cc: " : String).data :=
    noOccursOfB (hlits _ (by simp))
  have hbccLit : ¬ OccursIn p ("Bcc: " : String).data :=
    noOccursOfB (hlits _ (by simp))
  have hcolonLit : ¬ OccursIn p (": " : String).data :=
    noOccursOfB (hlits _ (by simp))
  have hcrlfLit : ¬ OccursIn p crlf.data :=
    noOccursOfB (hlits _ (by simp))
  have hct : contentTypeOf m = htmlTypeContentType := by
    simp [contentTypeOf, hAtt, hBody, hHtml]
  have hmc : encodeMessageContent m = m.HTMLBody ++ crlf := by
    simp [encodeMessageContent, hBody, hHtml]
  have hbs : bodySection m = m.HTMLBody ++ crlf := by
    simp [bodySection, hAtt, hmc]
  have hflat : (encode m order).data =
      (("MIME-Version: 1.0" : String).data ++ crlf.data) ++
      ((("Subject: " : String).data ++ (("=?UTF-8?B?" : String).data ++
         ((encodeBase64 m.Subject).data ++ (("?=" : String).data ++ crlf.data)))) ++
      ((("From: " : String).data ++ (m.From.data ++ crlf.data)) ++
      ((("Content-Type: " ++ htmlTypeContentType : String).data ++ crlf.data) ++
      ((if m.Recipients ≠ [] then "To: " ++ joinSep m.Recipients ++ crlf else "").data ++
      ((if m.Cc ≠ [] then "Cc: " ++ joinSep m.Cc ++ crlf else "").data ++
      ((if m.Bcc ≠ [] then "Bcc: " ++ joinSep m.Bcc ++ crlf else "").data ++
      ((extraHeadersStr order).data ++
      (crlf.data ++ (m.HTMLBody.data ++ crlf.data))))))))) := by
    simp only [encode, headerBlock, subjectHeaderValue, hct, hbs,
      String.data_append, List.append_assoc]
  have t1 : TailSafe p (("MIME-Version: 1.0" : String).data ++ crlf.data) :=
    tailSafe_mk ("MIME-Version: 1.0" : String).data
      (noOccurs_append_right ⟨['\n'], by rw [crlf_data]⟩ hcr hmime hcrlfLit) rfl
  have t2 : TailSafe p (("Subject: " : String).data ++ (("=?UTF-8?B?" : String).data ++
      ((encodeBase64 m.Subject).data ++ (("?=" : String).data ++ crlf.data)))) := by
    have i1 : ¬ OccursIn p (("?=" : String).data ++ crlf.data) :=
      noOccurs_append_right ⟨['\n'], by rw [crlf_data]⟩ hcr hqeq hcrlfLit
    have i2 : ¬ OccursIn p
        ((encodeBase64 m.Subject).data ++ (("?=" : String).data ++ crlf.data)) := by
      refine noOccurs_append_right ⟨'=' :: crlf.data, ?_⟩ hq hSubj i1
      rw [show ("?=" : String).data = ['?', '='] from by decide]
      rfl
    have i3 : ¬ OccursIn p (("=?UTF-8?B?" : String).data ++
        ((encodeBase64 m.Subject).data ++ (("?=" : String).data ++ crlf.data))) :=
      noOccurs_append_left ⟨("=?UTF-8?B" : String).data, by decide⟩ hq hutf i2
    have i4 : ¬ OccursIn p (("Subject: " : String).data ++ (("=?UTF-8?B?" : String).data ++
        ((encodeBase64 m.Subject).data ++ (("?=" : String).data ++ crlf.data)))) :=
      noOccurs_append_left ⟨("Subject:" : String).data, by decide⟩ hsp hsubjLit i3
    refine tailSafe_mk (("Subject: " : String).data ++ (("=?UTF-8?B?" : String).data ++
      ((encodeBase64 m.Subject).data ++ ("?=" : String).data))) i4 ?_
    simp [List.append_assoc]
  have t3 : TailSafe p (("From: " : String).data ++ (m.From.data ++ crlf.data)) := by
    have i1 : ¬ OccursIn p (m.From.data ++ crlf.data) :=
      noOccurs_append_right ⟨['\n'], by rw [crlf_data]⟩ hcr hFrom hcrlfLit
    refine tailSafe_mk (("From: " : String).data ++ m.From.data)
      (noOccurs_append_left ⟨("From:" : String).data, by decide⟩ hsp hfromLit i1) ?_
    simp [List.append_assoc]
  have t4 : TailSafe p (("Content-Type: " ++ htmlTypeContentType : String).data ++ crlf.data) :=
    tailSafe_mk ("Content-Type: " ++ htmlTypeContentType : String).data
      (noOccurs_append_right ⟨['\n'], by rw [crlf_data]⟩ hcr hctLit hcrlfLit) rfl
  have t5 : TailSafe p (if m.Recipients ≠ [] then "To: " ++ joinSep m.Recipients ++ crlf
      else "").data := by
    by_cases h : m.Recipients = []
    · rw [if_neg (by simp [h])]
      exact ⟨noOccurs_nil hp, Or.inl rfl⟩
    · rw [if_pos h]
      exact tailSafe_addr_line hsp hcr "To: " m.Recipients
        ⟨("To:" : String).data, by decide⟩ htoLit hTo hcrlfLit
  have t6 : TailSafe p (if m.Cc ≠ [] then "Cc: " ++ joinSep m.Cc ++ crlf else "").data := by
    by_cases h : m.Cc = []
    · rw [if_neg (by simp [h])]
      exact ⟨noOccurs_nil hp, Or.inl rfl⟩
    · rw [if_pos h]
      exact tailSafe_addr_line hsp hcr "Cc: " m.Cc
        ⟨("Cc:" : String).data, by decide⟩ hccLit hCc hcrlfLit
  have t7 : TailSafe p (if m.Bcc ≠ [] then "Bcc: " ++ joinSep m.Bcc ++ crlf else "").data := by
    by_cases h : m.Bcc = []
    · rw [if_neg (by simp [h])]
      exact ⟨noOccurs_nil hp, Or.inl rfl⟩
    · rw [if_pos h]
      exact tailSafe_addr_line hsp hcr "Bcc: " m.Bcc
        ⟨("Bcc:" : String).data, by decide⟩ hbccLit hBcc hcrlfLit
  have t8 : TailSafe p (extraHeadersStr order).data :=
    tailSafe_extraHeaders hp hnl hcr hco hsp hcolonLit hcrlfLit order hHdr
  have t9 : TailSafe p crlf.data := tailSafe_mk [] hcrlfLit (List.nil_append _).symm
  have t10 : TailSafe p (m.HTMLBody.data ++ crlf.data) :=
    tailSafe_mk m.HTMLBody.data
      (noOccurs_append_right ⟨['\n'], by rw [crlf_data]⟩ hcr hHtmlB hcrlfLit) rfl
  rw [hflat]
  exact (tailSafe_append hnl t1 (tailSafe_append hnl t2 (tailSafe_append hnl t3
    (tailSafe_append hnl t4 (tailSafe_append hnl t5 (tailSafe_append hnl t6
    (tailSafe_append hnl t7 (tailSafe_append hnl t8
    (tailSafe_append hnl t9 t10))))))))).1

/-- The empty string has no characters. -/
theorem emptyString_data : ("" : String).data = [] := rfl

/-- C1: `encode` selects the top-level Content-Type by priority —
attachments give multipart/mixed (opening boundary line, the body
content part, one encoded part per attachment, final `--BOUNDARY--CRLF`
terminator, with a nested multipart/alternative part when both bodies
are present); otherwise both bodies give a multipart/alternative
envelope containing exactly two parts in order (plain, then HTML);
otherwise an HTML body alone gives `text/html; charset=UTF-8` with no
boundary markers anywhere in the output (provided the message's own
fields do not contain the marker strings); otherwise
`text/plain; charset=us-ascii`.  A message with one attachment and no
bodies encodes as multipart/mixed with exactly one attachment part and
the final terminator `--BOUNDARY--\r\n` at the end.  (`encode` does not
depend on validation, so this is proven for every message.) -/
theorem C1_content_shape (m : Message) (order : List (String × List String)) :
    encode m order = headerBlock m order ++ bodySection m ∧
    (m.Attachments ≠ [] → contentTypeOf m = multiPartMixedContentType) ∧
    (m.Attachments = [] → m.Body ≠ "" → m.HTMLBody ≠ "" →
      contentTypeOf m = multiPartAlternativeContentType) ∧
    (m.Attachments = [] → m.Body = "" → m.HTMLBody ≠ "" →
      contentTypeOf m = htmlTypeContentType) ∧
    (m.Attachments = [] → m.HTMLBody = "" → contentTypeOf m = plainContentType) ∧
    (m.Attachments ≠ [] →
      bodySection m = "--" ++ boundary ++ crlf ++ encodeMultiPartMixed m ++
        attachmentsStr m.Attachments ++ "--" ++ boundary ++ "--" ++ crlf) ∧
    (∀ a : Attachment, Attachment.encode a = "--" ++ boundary ++ crlf ++ attachmentPartBody a) ∧
    (m.Body ≠ "" → m.HTMLBody ≠ "" →
      encodeMultiPartMixed m = encodeMessageContent m ++ crlf ∧
      encodeMessageContent m = altEnvelope m) ∧
    (m.Attachments = [] → m.Body ≠ "" → m.HTMLBody ≠ "" → bodySection m = altEnvelope m) ∧
    (m.Attachments = [] → m.Body = "" → m.HTMLBody ≠ "" →
      bodySection m = m.HTMLBody ++ crlf ∧
      (MarkerFree m.From → MarkerFree (joinSep m.Recipients) → MarkerFree (joinSep m.Cc) →
       MarkerFree (joinSep m.Bcc) → MarkerFree (encodeBase64 m.Subject) →
       MarkerFree m.HTMLBody →
       (∀ kv ∈ order, MarkerFree kv.1 ∧ MarkerFree (joinSep kv.2)) →
       MarkerFree (encode m order))) ∧
    (∀ a : Attachment, m.Attachments = [a] → m.Body = "" → m.HTMLBody = "" →
      encode m order = headerBlock m order ++
        ("--" ++ boundary ++ crlf ++ plainMixedPart m ++
         ("--" ++ boundary ++ crlf ++ attachmentPartBody a) ++
         ("--" ++ boundary ++ "--" ++ crlf)) ∧
      StrEndsWith (encode m order) ("--" ++ boundary ++ "--" ++ crlf)) := by
  have hmm : m.Body ≠ "" → m.HTMLBody ≠ "" →
      encodeMultiPartMixed m = encodeMessageContent m ++ crlf ∧
      encodeMessageContent m = altEnvelope m := by
    intro h1 h2
    constructor
    · simp [encodeMultiPartMixed, h1, h2]
    · apply String.ext
      simp [encodeMessageContent, altEnvelope, plainAltPart, htmlAltPart, h1, h2,
        String.data_append, List.append_assoc]
  refine ⟨rfl, ?_, ?_, ?_, ?_, ?_, ?_, hmm, ?_, ?_, ?_⟩
  · intro h; simp [contentTypeOf, h]
  · intro h1 h2 h3; simp [contentTypeOf, h1, h2, h3]
  · intro h1 h2 h3; simp [contentTypeOf, h1, h2, h3]
  · intro h1 h2; simp [contentTypeOf, h1, h2]
  · intro h; simp [bodySection, h]
  · intro a; rfl
  · intro h1 h2 h3
    rw [bodySection, if_neg (by simp [h1])]
    rw [(hmm h2 h3).2]
  · intro h1 h2 h3
    constructor
    · simp [bodySection, h1, encodeMessageContent, h2, h3]
    · intro hFrom hTo hCc hBcc hSubj hHtmlB hHdr
      constructor
      · refine (occursB_eq_false_iff _ _).mpr ?_
        exact htmlOnly_no_marker m order h1 h2 h3 (by decide) (by decide) (by decide)
          (noOccursOfB hFrom.1) (noOccursOfB hTo.1) (noOccursOfB hCc.1)
          (noOccursOfB hBcc.1) (noOccursOfB hSubj.1) (noOccursOfB hHtmlB.1)
          (fun kv hkv => ⟨noOccursOfB (hHdr kv hkv).1.1, noOccursOfB (hHdr kv hkv).2.1⟩)
      · refine (occursB_eq_false_iff _ _).mpr ?_
        exact htmlOnly_no_marker m order h1 h2 h3 (by decide) (by decide) (by decide)
          (noOccursOfB hFrom.2) (noOccursOfB hTo.2) (noOccursOfB hCc.2)
          (noOccursOfB hBcc.2) (noOccursOfB hSubj.2) (noOccursOfB hHtmlB.2)
          (fun kv hkv => ⟨noOccursOfB (hHdr kv hkv).1.2, noOccursOfB (hHdr kv hkv).2.2⟩)
  · intro a hA hB hH
    have heq : encode m order = headerBlock m order ++
        ("--" ++ boundary ++ crlf ++ plainMixedPart m ++
         ("--" ++ boundary ++ crlf ++ attachmentPartBody a) ++
         ("--" ++ boundary ++ "--" ++ crlf)) := by
      apply String.ext
      simp [encode, bodySection, hA, encodeMultiPartMixed, hB, hH, plainMixedPart,
        attachmentsStr, Attachment.encode, emptyString_data,
        String.data_append, List.append_assoc]
    refine ⟨heq, ?_⟩
    refine ⟨headerBlock m order ++
        ("--" ++ boundary ++ crlf ++ plainMixedPart m ++
         ("--" ++ boundary ++ crlf ++ attachmentPartBody a)), ?_⟩
    rw [heq]
    apply String.ext
    simp [String.data_append, List.append_assoc]

/-- Witness for C1: the HTML-only shape (with marker-freeness) and the
single-attachment shape, at concrete messages. -/
theorem C1_content_shape_witness :
    bodySection c1HtmlMsg = ("<p>hello</p>" : String) ++ crlf ∧
    MarkerFree (encode c1HtmlMsg []) ∧
    contentTypeOf c1HtmlMsg = htmlTypeContentType ∧
    StrEndsWith (encode c1AttMsg []) ("--" ++ boundary ++ "--" ++ crlf) := by
  have h1 := (C1_content_shape c1HtmlMsg []).2.2.2.2.2.2.2.2.2.1 rfl rfl (by decide)
  have h2 := (C1_content_shape c1HtmlMsg []).2.2.2.1 rfl rfl (by decide)
  have h3 := (C1_content_shape c1AttMsg []).2.2.2.2.2.2.2.2.2.2
    { Filename := "f1", Data := [1, 2], MIMEType := "application/pdf" } rfl rfl rfl
  exact ⟨h1.1,
    h1.2 ⟨by decide, by decide⟩ ⟨by decide, by decide⟩ ⟨by decide, by decide⟩
      ⟨by decide, by decide⟩ ⟨by decide, by decide⟩ ⟨by decide, by decide⟩
      (by intro kv hkv; simp at hkv),
    h2, h3.2⟩

end Gomailer
